import Mathlib

/-!
Shallow embedding of `wpilib/src/robot_base.rs` from first-rust-competition:
the process-wide initialization guard (`ROBOT_INITED`), `RobotBase::new`,
`Drop for RobotBase`, and the telemetry accessors built on `hal_call!`.

HAL functions are external; each embedded operation takes the values the HAL
would return as explicit parameters and records the HAL calls it performs as
an effect trace, so claims about which calls happen on which path are
statements about that trace.
-/

namespace RobotBaseSpec

/-- `enum RobotBaseInitError { HalInitFailed, AlreadyInit }`. -/
inductive RobotBaseInitError where
  | HalInitFailed
  | AlreadyInit
  deriving DecidableEq, Repr

/-- `pub struct RobotBase {}` — a fieldless capability token. -/
structure RobotBase where
  deriving DecidableEq, Repr

/-- Modelled from the spec: the `HalError` produced by the `hal_call!` wrapper
of the wpilib-sys crate (not under `src/`), "a typed success/failure result"
"carrying the HAL's own status code". -/
structure HalError where
  status : Int
  deriving DecidableEq, Repr

/-- Modelled from the spec: the `hal_call!` macro of the wpilib-sys crate (not
under `src/`), which invokes one HAL function and wraps its out-value and
status code "into a typed success/failure result immediately": status 0 is
success, any nonzero status becomes a `HalError` carrying that code. -/
def hal_call (value : α) (status : Int) : Except HalError α :=
  if status = 0 then Except.ok value else Except.error ⟨status⟩

/-- The observable calls `robot_base.rs` makes into the HAL / support crates:
`HAL_Initialize(timeout, mode)`, `usage::report(...)`, the startup banner
`println!`, and `HAL_ReleaseDSMutex()`. -/
inductive HalCall where
  | halInit (timeout mode : Int)
  | usageReport
  | printBanner
  | releaseDSMutex
  deriving DecidableEq, Repr

instance {ε α : Type _} [DecidableEq ε] [DecidableEq α] : DecidableEq (Except ε α) :=
  fun x y =>
  match x, y with
  | Except.ok a, Except.ok b =>
    if h : a = b then Decidable.isTrue (congrArg Except.ok h)
    else Decidable.isFalse (fun hc => h (Except.ok.inj hc))
  | Except.error a, Except.error b =>
    if h : a = b then Decidable.isTrue (congrArg Except.error h)
    else Decidable.isFalse (fun hc => h (Except.error.inj hc))
  | Except.ok _, Except.error _ => Decidable.isFalse (fun hc => Except.noConfusion hc)
  | Except.error _, Except.ok _ => Decidable.isFalse (fun hc => Except.noConfusion hc)

/-- Outcome of one `RobotBase::new` call: the returned `Result`, the value of
the `ROBOT_INITED` atomic afterwards, and the trace of calls performed. -/
structure NewResult where
  result : Except RobotBaseInitError RobotBase
  guard : Bool
  calls : List HalCall
  deriving DecidableEq, Repr

/-- `RobotBase::new`.  `guard` is the value of `ROBOT_INITED` when the call
runs its `compare_and_swap(false, true, AcqRel)` (which returns the previous
value and stores `true` on success); `halInitRet` is the `HAL_Bool` that
`HAL_Initialize(500, 0)` would return if reached. -/
def RobotBase.new (guard : Bool) (halInitRet : Int) : NewResult :=
  if guard then
    { result := Except.error RobotBaseInitError.AlreadyInit
      guard := guard
      calls := [] }
  else if halInitRet = 0 then
    { result := Except.error RobotBaseInitError.HalInitFailed
      guard := true
      calls := [HalCall.halInit 500 0] }
  else
    { result := Except.ok {}
      guard := true
      calls := [HalCall.halInit 500 0, HalCall.usageReport, HalCall.printBanner] }

/-- `impl Drop for RobotBase`: the drop glue runs the body once; the body
reads no state and performs exactly `HAL_ReleaseDSMutex()`.  Returns the
(unchanged) guard and the trace of calls. -/
def RobotBase.drop (guard : Bool) : Bool × List HalCall :=
  (guard, [HalCall.releaseDSMutex])

/-- `std::time::Duration` as stored: whole seconds (`u64` in Rust) and a
nanosecond part kept below 1 000 000 000. -/
structure Duration where
  secs : Nat
  nanos : Nat
  deriving DecidableEq, Repr

/-- `Duration::new(secs, nanos)`: nanoseconds at or above one billion carry
into the seconds (the Rust constructor panics only if that carry overflows
`u64`, which cannot happen for the `u64`-ranged inputs this file passes). -/
def Duration.new (secs nanos : Nat) : Duration :=
  { secs := secs + nanos / 1000000000, nanos := nanos % 1000000000 }

/-- `RobotBase::fpga_time_duration`, as a function of the `HalResult<u64>`
that `Self::fpga_time()` returns.  The `?` propagates the error; on success
`sec = usec / 1_000_000` and `nsec = (usec % 1_000_000) as u32 * 1000`, the
`u32` cast and multiplication taken mod 2^32. -/
def fpga_time_duration (fpgaTime : Except HalError Nat) : Except HalError Duration :=
  match fpgaTime with
  | Except.error e => Except.error e
  | Except.ok usec =>
    let sec : Nat := usec / 1000000
    let nsec : Nat := (usec % 1000000) % 2 ^ 32 * 1000 % 2 ^ 32
    Except.ok (Duration.new sec nsec)

/-- `RobotBase::user_button`: `Ok(hal_call!(HAL_GetFPGAButton())? != 0)`,
as a function of the HAL out-value and status code. -/
def user_button (value status : Int) : Except HalError Bool :=
  match hal_call value status with
  | Except.error e => Except.error e
  | Except.ok v => Except.ok (v != 0)

/-- `RobotBase::is_browned_out`: `Ok(hal_call!(HAL_GetBrownedOut())? != 0)`. -/
def is_browned_out (value status : Int) : Except HalError Bool :=
  match hal_call value status with
  | Except.error e => Except.error e
  | Except.ok v => Except.ok (v != 0)

/-- `RobotBase::is_system_active`: `Ok(hal_call!(HAL_GetSystemActive())? != 0)`. -/
def is_system_active (value status : Int) : Except HalError Bool :=
  match hal_call value status with
  | Except.error e => Except.error e
  | Except.ok v => Except.ok (v != 0)

/-- The external `DriverStation` collaborator (its internals live in `ds.rs`,
out of scope); only its identity matters to `make_ds`. -/
structure DriverStation where
  deriving DecidableEq, Repr

/-- `RobotBase::make_ds`:
`DriverStation::from_base(self).expect("HAL FAILED ON DS CREATION")`, as a
function of the result of `DriverStation::from_base`.  `expect` returns the
success value and panics (modelled as `none`) on error — no error value ever
reaches the caller. -/
def make_ds (fromBase : Except HalError DriverStation) : Option DriverStation :=
  match fromBase with
  | Except.ok ds => some ds
  | Except.error _ => none

/-- N construction attempts hitting the one `ROBOT_INITED` atomic: the
`compare_and_swap` is a single atomic operation, so any concurrent schedule
is equivalent to running the attempts in the order their CAS operations
commit; `runAttempts` runs them in that order, threading the guard. -/
def runAttempts (guard : Bool) : List Int → List (Except RobotBaseInitError RobotBase)
  | [] => []
  | r :: rs =>
    let n := RobotBase.new guard r
    n.result :: runAttempts n.guard rs

theorem runAttempts_true (rs : List Int) :
    runAttempts true rs =
      List.replicate rs.length (Except.error RobotBaseInitError.AlreadyInit) := by
  induction rs with
  | nil => rfl
  | cons r rs ih => simp [runAttempts, RobotBase.new, ih, List.replicate]

theorem fpga_time_duration_ok_eq (usec : Nat) :
    fpga_time_duration (Except.ok usec) =
      Except.ok { secs := usec / 1000000, nanos := usec % 1000000 * 1000 } := by
  have h1 : usec % 1000000 < 1000000 := Nat.mod_lt _ (by norm_num)
  have h2 : usec % 1000000 % 2 ^ 32 = usec % 1000000 := Nat.mod_eq_of_lt (by omega)
  have h3 : usec % 1000000 * 1000 % 2 ^ 32 = usec % 1000000 * 1000 :=
    Nat.mod_eq_of_lt (by omega)
  simp only [fpga_time_duration, Duration.new, h2, h3, Except.ok.injEq, Duration.mk.injEq]
  constructor <;> omega

theorem countP_isOk_replicate_err (n : Nat) :
    List.countP Except.isOk
      (List.replicate n
        (Except.error RobotBaseInitError.AlreadyInit :
          Except RobotBaseInitError RobotBase)) = 0 := by
  induction n with
  | zero => rfl
  | succ n ih =>
    simp [List.replicate_succ, List.countP_cons, ih, Except.isOk, Except.toBool]

/-- C1: every `u64` microsecond reading is converted to whole seconds
`usec / 1_000_000` and nanoseconds `(usec % 1_000_000) * 1000`; in particular
1_500_000 µs gives 1 s 500_000_000 ns and 0 µs gives the zero duration. -/
theorem fpga_time_duration_conversion :
    (∀ usec : Nat,
      fpga_time_duration (Except.ok usec) =
        Except.ok { secs := usec / 1000000, nanos := usec % 1000000 * 1000 }) ∧
    fpga_time_duration (Except.ok 1500000) =
      Except.ok { secs := 1, nanos := 500000000 } ∧
    fpga_time_duration (Except.ok 0) = Except.ok { secs := 0, nanos := 0 } :=
  ⟨fun usec => fpga_time_duration_ok_eq usec, by decide, by decide⟩

/-- C2: when the guard is already claimed, `RobotBase::new` returns
`AlreadyInit`, performs no HAL call, and leaves the guard unchanged. -/
theorem new_when_already_claimed (r : Int) :
    RobotBase.new true r =
      { result := Except.error RobotBaseInitError.AlreadyInit
        guard := true
        calls := [] } := by
  simp [RobotBase.new]

/-- C3: the first construction attempt invokes `HAL_Initialize` with timeout
500 and mode flag 0; if that call returns 0, construction fails with
`HalInitFailed` while the guard remains claimed, so every subsequent attempt
returns `AlreadyInit`. -/
theorem new_first_attempt_hal_failure (r : Int) :
    (RobotBase.new false r).calls.head? = some (HalCall.halInit 500 0) ∧
    (r = 0 →
      RobotBase.new false r =
        { result := Except.error RobotBaseInitError.HalInitFailed
          guard := true
          calls := [HalCall.halInit 500 0] } ∧
      ∀ r' : Int,
        (RobotBase.new (RobotBase.new false r).guard r').result =
          Except.error RobotBaseInitError.AlreadyInit) := by
  constructor
  · by_cases h : r = 0 <;> simp [RobotBase.new, h]
  · intro h
    subst h
    exact ⟨rfl, fun r' => rfl⟩

/-- Witness for C3 at the concrete HAL return value 0 (and a later attempt
with HAL return value 7). -/
theorem new_first_attempt_hal_failure_witness :
    (RobotBase.new false 0).calls.head? = some (HalCall.halInit 500 0) ∧
    RobotBase.new false 0 =
      { result := Except.error RobotBaseInitError.HalInitFailed
        guard := true
        calls := [HalCall.halInit 500 0] } ∧
    (RobotBase.new (RobotBase.new false 0).guard 7).result =
      Except.error RobotBaseInitError.AlreadyInit :=
  ⟨(new_first_attempt_hal_failure 0).1,
   ((new_first_attempt_hal_failure 0).2 rfl).1,
   ((new_first_attempt_hal_failure 0).2 rfl).2 7⟩

/-- C4: after a successful construction the guard is claimed; destruction
never resets it; hence every later attempt, including one made after the
first handle was dropped, fails with `AlreadyInit`. -/
theorem guard_permanent_after_success (r : Int)
    (h : (RobotBase.new false r).result.isOk = true) :
    (RobotBase.new false r).guard = true ∧
    (∀ g : Bool, (RobotBase.drop g).fst = g) ∧
    (∀ r' : Int,
      (RobotBase.new (RobotBase.drop (RobotBase.new false r).guard).fst r').result =
        Except.error RobotBaseInitError.AlreadyInit) := by
  by_cases hr : r = 0
  · subst hr
    simp [RobotBase.new, Except.isOk, Except.toBool] at h
  · exact ⟨by simp [RobotBase.new, hr], fun g => rfl,
      fun r' => by simp [RobotBase.new, RobotBase.drop, hr]⟩

/-- Witness for C4: a successful construction (HAL returns 1), then a drop,
then another attempt, which fails with `AlreadyInit`. -/
theorem guard_permanent_after_success_witness :
    (RobotBase.new false 1).result.isOk = true ∧
    (RobotBase.new (RobotBase.drop (RobotBase.new false 1).guard).fst 1).result =
      Except.error RobotBaseInitError.AlreadyInit :=
  ⟨by decide, (guard_permanent_after_success 1 (by decide)).2.2 1⟩

/-- C5: each boolean accessor returns `Ok(true)` exactly when the HAL query
succeeds (status 0) with a nonzero value, `Ok(false)` exactly when it
succeeds with zero, and propagates the `HalError` on a nonzero status. -/
theorem bool_accessors_spec (v s : Int) :
    (user_button v s = Except.ok true ↔ s = 0 ∧ v ≠ 0) ∧
    (user_button v s = Except.ok false ↔ s = 0 ∧ v = 0) ∧
    (s ≠ 0 → user_button v s = Except.error ⟨s⟩) ∧
    (is_browned_out v s = Except.ok true ↔ s = 0 ∧ v ≠ 0) ∧
    (is_browned_out v s = Except.ok false ↔ s = 0 ∧ v = 0) ∧
    (s ≠ 0 → is_browned_out v s = Except.error ⟨s⟩) ∧
    (is_system_active v s = Except.ok true ↔ s = 0 ∧ v ≠ 0) ∧
    (is_system_active v s = Except.ok false ↔ s = 0 ∧ v = 0) ∧
    (s ≠ 0 → is_system_active v s = Except.error ⟨s⟩) := by
  by_cases hs : s = 0 <;> by_cases hv : v = 0 <;>
    simp [user_button, is_browned_out, is_system_active, hal_call, hs, hv]

/-- Witness for C5: concrete evaluations through the theorem, covering a
nonzero success, a zero success, and a failed query. -/
theorem bool_accessors_spec_witness :
    user_button 5 0 = Except.ok true ∧
    is_browned_out 0 0 = Except.ok false ∧
    is_system_active 7 3 = Except.error ⟨3⟩ :=
  ⟨(bool_accessors_spec 5 0).1.mpr (by decide),
   (bool_accessors_spec 0 0).2.1.mpr (by decide),
   (bool_accessors_spec 7 3).2.2.2.2.2.2.2.2 (by decide)⟩

/-- C6: dropping a handle performs exactly one `HAL_ReleaseDSMutex` call and
nothing else, and leaves all other state (the guard) untouched. -/
theorem drop_releases_ds_mutex_once (g : Bool) :
    RobotBase.drop g = (g, [HalCall.releaseDSMutex]) ∧
    (RobotBase.drop g).snd.count HalCall.releaseDSMutex = 1 ∧
    (RobotBase.drop g).snd.length = 1 :=
  ⟨rfl, rfl, rfl⟩

/-- C7: among N ≥ 1 construction attempts serialized by the atomic
compare-and-swap, with every HAL init succeeding, exactly one attempt
succeeds and the other N − 1 fail with `AlreadyInit`. -/
theorem construction_race_exactly_one_winner (inits : List Int)
    (hne : inits ≠ []) (hok : ∀ r ∈ inits, r ≠ 0) :
    (runAttempts false inits).length = inits.length ∧
    (runAttempts false inits).countP Except.isOk = 1 ∧
    (runAttempts false inits).count (Except.error RobotBaseInitError.AlreadyInit) =
      inits.length - 1 ∧
    ∀ x ∈ runAttempts false inits,
      Except.isOk x = true ∨ x = Except.error RobotBaseInitError.AlreadyInit := by
  obtain ⟨r, rs, rfl⟩ : ∃ r rs, inits = r :: rs := by
    cases inits with
    | nil => exact absurd rfl hne
    | cons r rs => exact ⟨r, rs, rfl⟩
  have hr : r ≠ 0 := hok r (List.mem_cons_self r rs)
  have hrun : runAttempts false (r :: rs) =
      Except.ok {} ::
        List.replicate rs.length (Except.error RobotBaseInitError.AlreadyInit) := by
    simp [runAttempts, RobotBase.new, hr, runAttempts_true]
  refine ⟨?_, ?_, ?_, ?_⟩
  · simp [hrun]
  · rw [hrun]
    simp [List.countP_cons, countP_isOk_replicate_err, Except.isOk, Except.toBool]
  · rw [hrun]
    simp [List.count_cons, List.count_replicate_self]
  · intro x hx
    rw [hrun] at hx
    rcases List.mem_cons.mp hx with h | h
    · subst h
      exact Or.inl rfl
    · exact Or.inr (List.eq_of_mem_replicate h)

/-- Witness for C7: three attempts with succeeding HAL inits — one winner,
two `AlreadyInit` failures. -/
theorem construction_race_exactly_one_winner_witness :
    (runAttempts false [1, 2, 3]).countP Except.isOk = 1 ∧
    (runAttempts false [1, 2, 3]).count
      (Except.error RobotBaseInitError.AlreadyInit) = 2 :=
  ⟨(construction_race_exactly_one_winner [1, 2, 3] (by decide) (by decide)).2.1,
   (construction_race_exactly_one_winner [1, 2, 3] (by decide) (by decide)).2.2.1⟩

/-- C8: `make_ds` hands the driver-station session to the caller on success
and never returns an error value: a HAL-level failure of the underlying
construction becomes a process-fatal abort (`none` models the panic from
`expect`). -/
theorem make_ds_no_error_to_caller :
    (∀ ds : DriverStation, make_ds (Except.ok ds) = some ds) ∧
    (∀ e : HalError, make_ds (Except.error e) = none) :=
  ⟨fun _ => rfl, fun _ => rfl⟩

/-- C9: `fpga_time_duration` errors exactly when the underlying `fpga_time`
read errors, and then returns the very same `HalError` value. -/
theorem fpga_time_duration_error_propagation (r : Except HalError Nat)
    (e : HalError) :
    fpga_time_duration r = Except.error e ↔ r = Except.error e := by
  cases r with
  | error e0 => simp [fpga_time_duration]
  | ok usec => simp [fpga_time_duration]

/-- C10: the nanosecond computation never overflows `u32` (both mod-2^32
reductions are identities and the value is at most 999_999_000 < 10^9), so
the duration's nanosecond field never carries into the seconds field. -/
theorem fpga_time_duration_nsec_no_overflow (usec : Nat) :
    usec % 1000000 % 2 ^ 32 * 1000 % 2 ^ 32 = usec % 1000000 * 1000 ∧
    usec % 1000000 * 1000 ≤ 999999000 ∧
    usec % 1000000 * 1000 < 1000000000 ∧
    fpga_time_duration (Except.ok usec) =
      Except.ok { secs := usec / 1000000, nanos := usec % 1000000 * 1000 } := by
  have h1 : usec % 1000000 < 1000000 := Nat.mod_lt _ (by norm_num)
  have h2 : usec % 1000000 % 2 ^ 32 = usec % 1000000 := Nat.mod_eq_of_lt (by omega)
  have h3 : usec % 1000000 * 1000 % 2 ^ 32 = usec % 1000000 * 1000 :=
    Nat.mod_eq_of_lt (by omega)
  exact ⟨by rw [h2, h3], by omega, by omega, fpga_time_duration_ok_eq usec⟩

end RobotBaseSpec
